import Mathlib

/-!
Verification development for the Makuwro wrapper SDK.

The definitions below are a shallow embedding of the client-side request
mediation layer of the repository: the error taxonomy and the static
error-mapping function, the generic REST request primitive with its timeout
and token handling, the user cache, account/content path construction,
multipart form-field serialization, content hydration, and the local image
decode check.  The network is modelled by an explicit mock behavior value,
and every network call a function makes is recorded in an explicit trace.
-/

namespace Makuwro

/-- Decoded JSON values, the result of parsing a response body. -/
inductive Json where
  | null
  | bool (b : Bool)
  | num (n : Int)
  | str (s : String)
  | arr (elems : List Json)
  | obj (fields : List (String × Json))

/-- Field lookup in a decoded JSON object, first binding wins. -/
def Json.lookupField : List (String × Json) → String → Option Json
  | [], _ => none
  | (k, v) :: rest, key => if k = key then some v else Json.lookupField rest key

/-- Property access on a decoded value: an object yields its field, anything else yields
the JS undefined, modelled as none. -/
def Json.get? (j : Json) (key : String) : Option Json :=
  match j with
  | .obj fields => Json.lookupField fields key
  | _ => none

/-- The numeric code field of a decoded error body, none when absent or non-numeric. -/
def Json.code? (j : Json) : Option Int :=
  match j.get? "code" with
  | some (.num n) => some n
  | _ => none

/-- The message field of a decoded error body, none when absent or non-textual. -/
def Json.message? (j : Json) : Option String :=
  match j.get? "message" with
  | some (.str s) => some s
  | _ => none

/-- The failure conditions the client can raise.  The named conditions correspond to the
makuwro-errors classes; rawError models a plain JS Error thrown with a message. -/
inductive MakuwroError where
  | unknown
  | badCredentials
  | invalidToken
  | accountBlocked
  | accountConflict
  | accountNotFound
  | underage
  | usernameFormat
  | contentConflict
  | unallowedFileType
  | timeout
  | requiredVariable (name : String)
  | rawError (message : Option String)
deriving DecidableEq, Repr

/-- Client.throwErrorFromObject from src/unnamed/part_001: a switch on the code field
destructured from the error object, with an UnknownError default. -/
def throwErrorFromObject (code : Option Int) : MakuwroError :=
  if code = some 0 then .unknown
  else if code = some 10000 then .badCredentials
  else if code = some 10001 then .invalidToken
  else if code = some 10003 then .accountBlocked
  else if code = some 10004 then .accountConflict
  else if code = some 10005 then .accountNotFound
  else if code = some 10012 then .underage
  else if code = some 10013 then .usernameFormat
  else if code = some 20000 then .contentConflict
  else .unknown

namespace ClientJS

/-- Client.throwErrorFromObject from src/classes/Client.js: the earlier revision of the
mapping.  It handles only codes 0, 10000, 10003 and 10013; every other code falls to the
default branch, which throws a plain JS Error built from the message field. -/
def throwErrorFromObject (code : Option Int) (message : Option String) : MakuwroError :=
  if code = some 0 then .unknown
  else if code = some 10000 then .badCredentials
  else if code = some 10003 then .accountBlocked
  else if code = some 10013 then .usernameFormat
  else .rawError message

end ClientJS

/-- JS truthiness of an optional string value: undefined, null and the empty string are
falsy, any other string is truthy. -/
def strTruthy : Option String → Bool
  | none => false
  | some s => !s.isEmpty

/-- JS template-literal interpolation of an optional string: undefined renders as the
text undefined. -/
def jsInterp : Option String → String
  | none => "undefined"
  | some s => s

/-- A user record, as copied onto the instance by the Account and User constructors
(src/classes/Account.js, src/classes/User.js). -/
structure User where
  username : String
  displayName : Option String
  id : String
  avatarPath : Option String
deriving DecidableEq, Repr

/-- A raw user data bag, before hydration into a User instance. -/
structure UserData where
  username : String
  displayName : Option String
  id : String
  avatarPath : Option String
deriving DecidableEq, Repr

/-- The Account/User constructor applied to a raw data bag: each field is copied from the
data object onto the instance. -/
def User.ofData (d : UserData) : User :=
  { username := d.username, displayName := d.displayName
    id := d.id, avatarPath := d.avatarPath }

/-- Decode a raw user data bag from a JSON value, reading the fields the Account
constructor copies. -/
def UserData.ofJson (j : Json) : UserData :=
  { username := match j.get? "username" with | some (.str s) => s | _ => ""
    displayName := match j.get? "displayName" with | some (.str s) => some s | _ => none
    id := match j.get? "id" with | some (.str s) => s | _ => ""
    avatarPath := match j.get? "avatarPath" with | some (.str s) => some s | _ => none }

/-- The User built from a decoded server response, new User(data, this). -/
def User.ofJson (j : Json) : User := User.ofData (UserData.ofJson j)

/-- The mutable state a Client instance holds: the session token, the REST base endpoint,
the timeout in milliseconds and the cached authenticated user. -/
structure ClientState where
  token : Option String
  rest : String
  timeout : Nat
  user : Option User
deriving DecidableEq, Repr

/-- A value appended to a multipart FormData field: either text or a binary File. -/
inductive FormValue where
  | str (s : String)
  | file (name : String)
deriving DecidableEq, Repr

/-- One network call issued through fetch: the URL, the HTTP method, the headers actually
sent and the multipart body, if any. -/
structure FetchCall where
  url : String
  method : String
  headers : List (String × String)
  body : Option (List (String × FormValue))
deriving DecidableEq, Repr

/-- Header lookup with JS object-literal semantics: a later binding for the same key
overrides an earlier one. -/
def getHeader : List (String × String) → String → Option String
  | [], _ => none
  | (k, v) :: rest, key =>
    match getHeader rest key with
    | some r => some r
    | none => if k = key then some v else none

/-- The headers requestREST actually sends: the headers of the caller spread into an object
whose token key is then set to the stored token, when the stored token is truthy —
otherwise the headers of the caller unchanged. -/
def sentHeaders (st : ClientState) (headers : List (String × String)) :
    List (String × String) :=
  match st.token with
  | some t => if t.isEmpty then headers else headers ++ [("token", t)]
  | none => headers

/-- The mock behavior of the network for a single fetch: either no response ever arrives,
or a response with the given HTTP success flag and decoded JSON body arrives after
delayMs milliseconds. -/
inductive NetBehavior where
  | hangs
  | responds (delayMs : Nat) (ok : Bool) (body : Json)

/-- The data value requestREST holds after the conditional body read: the JS expression
(method === "GET" || getJsonAnyway) && await response.json() leaves the boolean false
when the condition fails, so the body is never read; otherwise it is the decoded JSON. -/
inductive RData where
  | skipped
  | json (j : Json)

/-- The code field seen by throwErrorFromObject when destructuring the data value:
destructuring the boolean false yields an undefined code. -/
def RData.code? : RData → Option Int
  | .skipped => none
  | .json j => j.code?

/-- The outcome of one requestREST call: its returned value or raised condition, plus the
trace of fetch calls it issued. -/
structure RESTOutcome where
  result : Except MakuwroError RData
  fetches : List FetchCall

/-- The raised condition of a request outcome, none on success. -/
def RESTOutcome.error? (r : RESTOutcome) : Option MakuwroError :=
  match r.result with
  | .error e => some e
  | .ok _ => none

/-- True when the request outcome returned successfully. -/
def RESTOutcome.isOk (r : RESTOutcome) : Bool :=
  match r.result with
  | .error _ => false
  | .ok _ => true

/-- requestREST from src/unnamed/part_001 (lines 439-463).  It starts an abort timer of
the client timeout, issues one fetch with the token header attached when the stored token
is truthy, reads the body as JSON only when the method is GET or getJsonAnyway is set,
and on a non-ok response raises the condition throwErrorFromObject finds for the data
value.  A fired timer aborts the fetch, which surfaces as the Timeout condition; no
second fetch is ever issued. -/
def requestREST (st : ClientState) (path method : String)
    (headers : List (String × String)) (body : Option (List (String × FormValue)))
    (getJsonAnyway : Bool) (net : NetBehavior) : RESTOutcome :=
  let call : FetchCall :=
    { url := st.rest ++ path, method := method
      headers := sentHeaders st headers, body := body }
  match net with
  | .hangs => { result := .error .timeout, fetches := [call] }
  | .responds delayMs ok responseBody =>
    if st.timeout ≤ delayMs then
      { result := .error .timeout, fetches := [call] }
    else
      let data : RData :=
        if method = "GET" || getJsonAnyway then .json responseBody else .skipped
      if ok then
        { result := .ok data, fetches := [call] }
      else
        { result := .error (throwErrorFromObject data.code?), fetches := [call] }

/-- The comparison id === this.user?.id: false when either side is absent, strict
equality otherwise. -/
def idMatches : Option User → Option String → Bool
  | some u, some i => i = u.id
  | _, _ => false

/-- The comparison username.toLowerCase() === this.user?.username.toLowerCase(): false
when either side is absent, case-insensitive equality otherwise. -/
def usernameMatches : Option User → Option String → Bool
  | some u, some un => un.toLower = u.username.toLower
  | _, _ => false

/-- The self test in getUser (src/unnamed/part_001 line 396): true when no identifier is
given, or the given id equals the id of the cached user, or the given username equals the
username of the cached user case-insensitively.  Identifier presence follows JS truthiness, so
an empty string counts as absent. -/
def isSelfLookup (st : ClientState) (username id : Option String) : Bool :=
  (!strTruthy username && !strTruthy id)
  || (strTruthy id && idMatches st.user id)
  || (strTruthy username && usernameMatches st.user username)

/-- The outcome of one getUser call: the returned user or raised condition, the client
state after the call, and the trace of fetch calls issued. -/
structure GetUserOutcome where
  result : Except MakuwroError User
  state : ClientState
  fetches : List FetchCall

/-- The raised condition of a getUser outcome, none on success. -/
def GetUserOutcome.error? (r : GetUserOutcome) : Option MakuwroError :=
  match r.result with
  | .error e => some e
  | .ok _ => none

/-- The network half of getUser: fetch accounts/user for a self lookup or
accounts/users/username otherwise, hydrate the response into a User, and store it in the
cache exactly when the lookup was a self lookup. -/
def getUserFetch (st : ClientState) (self : Bool) (username : Option String)
    (net : NetBehavior) : GetUserOutcome :=
  let path := "accounts/user" ++ (if self then "" else "s/" ++ jsInterp username)
  let r := requestREST st path "GET" [] none false net
  match r.result with
  | .error e => { result := .error e, state := st, fetches := r.fetches }
  | .ok d =>
    let j := match d with | .json j => j | .skipped => .null
    let user := User.ofJson j
    { result := .ok user
      state := if self then { st with user := some user } else st
      fetches := r.fetches }

/-- getUser from src/unnamed/part_001 (lines 393-428).  A self lookup with a populated
cache returns the cached user without any fetch; a self lookup with an empty cache and no
truthy token raises InvalidTokenError; every other call goes to the network. -/
def getUser (st : ClientState) (username id : Option String) (net : NetBehavior) :
    GetUserOutcome :=
  let self := isSelfLookup st username id
  match self, st.user with
  | true, some u => { result := .ok u, state := st, fetches := [] }
  | true, none =>
    if !strTruthy st.token then
      { result := .error .invalidToken, state := st, fetches := [] }
    else
      getUserFetch st true username net
  | false, _ => getUserFetch st false username net

/-- deleteSessionToken from src/unnamed/part_001 (lines 282-289).  The token argument
defaults to the stored token; it is sent as the caller-supplied token header of a DELETE
on accounts/user/sessions. -/
def deleteSessionToken (st : ClientState) (tokenArg : Option String)
    (net : NetBehavior) : RESTOutcome :=
  let token : Option String :=
    match tokenArg with
    | some t => some t
    | none => st.token
  requestREST st "accounts/user/sessions" "DELETE"
    [("token", jsInterp token)] none false net

/-- A value a caller can place in a props object: a string, a binary File, or any other
JS value, represented by its JSON shape. -/
inductive PropValue where
  | str (s : String)
  | file (name : String)
  | other (j : Json)

mutual

/-- JS default string coercion, as applied by FormData.append to a non-string, non-File
value: a plain object becomes the text [object Object], an array joins its coerced
elements with commas, and primitives render as their usual text. -/
def jsToString : Json → String
  | .null => "null"
  | .bool b => cond b "true" "false"
  | .num n => toString n
  | .str s => s
  | .arr elems => String.intercalate "," (jsToStringList elems)
  | .obj _ => "[object Object]"

/-- Coercion of each element of a JS array, for the array case of jsToString. -/
def jsToStringList : List Json → List String
  | [] => []
  | j :: rest => jsToString j :: jsToStringList rest

end

mutual

/-- JSON.stringify, restricted to the value shapes the embedding models. -/
def Json.stringify : Json → String
  | .null => "null"
  | .bool b => cond b "true" "false"
  | .num n => toString n
  | .str s => "\"" ++ s ++ "\""
  | .arr elems => "[" ++ String.intercalate "," (Json.stringifyList elems) ++ "]"
  | .obj fields =>
    "\x7b" ++ String.intercalate "," (Json.stringifyFields fields) ++ "\x7d"

/-- Serialization of each element of a JSON array. -/
def Json.stringifyList : List Json → List String
  | [] => []
  | j :: rest => Json.stringify j :: Json.stringifyList rest

/-- Serialization of each field of a JSON object. -/
def Json.stringifyFields : List (String × Json) → List String
  | [] => []
  | (k, v) :: rest => ("\"" ++ k ++ "\":" ++ Json.stringify v) :: Json.stringifyFields rest

end

/-- The conditional serialization applied per key by the createContent append loop
(src/unnamed/part_001 line 140): a string or File value passes through untouched, and
every other value is JSON-stringified before attaching. -/
def PropValue.serializedForCreate : PropValue → FormValue
  | .str s => .str s
  | .file name => .file name
  | .other j => .str (Json.stringify j)

/-- The per-key treatment of the updateContent and updateAccount append loops
(src/unnamed/part_001 lines 528-545 and 568-585): the value is appended directly, so
FormData applies its default coercion — a File stays binary and every other non-string
value goes through JS string coercion. -/
def PropValue.appendedDirectly : PropValue → FormValue
  | .str s => .str s
  | .file name => .file name
  | .other j => .str (jsToString j)

/-- The append loop of createContent: each key of props, in order, is appended to the
FormData with the conditional serialization. -/
def createContentFormData : List (String × PropValue) → List (String × FormValue)
  | [] => []
  | (k, v) :: rest => (k, v.serializedForCreate) :: createContentFormData rest

/-- The append loop of updateContent and updateAccount: each key of props, in order, is
appended to the FormData directly. -/
def updateContentFormData : List (String × PropValue) → List (String × FormValue)
  | [] => []
  | (k, v) :: rest => (k, v.appendedDirectly) :: updateContentFormData rest

/-- The owner field of a content record: absent (or a JS-falsy value), a raw data bag, or
an already hydrated User instance. -/
inductive OwnerField where
  | undef
  | raw (d : UserData)
  | user (u : User)
deriving DecidableEq, Repr

/-- The data argument the Content constructor receives, with the fields it reads. -/
structure ContentInit where
  id : Option String
  slug : Option String
  owner : OwnerField
  description : Option String
  contentWarning : Option String
  ageRestrictionLevel : Option Int
  uploadedOn : Option String
deriving DecidableEq, Repr

/-- A content instance after construction.  typeTag records which content-type
constructor built the instance, identified by its API directory name. -/
structure Content where
  typeTag : String
  id : Option String
  slug : Option String
  owner : OwnerField
  description : Option String
  contentWarning : Option String
  ageRestrictionLevel : Option Int
  uploadedOn : Option String
deriving DecidableEq, Repr

/-- The Content constructor (src/classes/Content.js lines 16-34): it copies the data
fields onto the instance, then wraps the owner in a User when the owner is present and
is not already a User instance; an owner that is already a User is left as-is. -/
def Content.construct (tag : String) (d : ContentInit) : Content :=
  { typeTag := tag, id := d.id, slug := d.slug
    owner :=
      match d.owner with
      | .undef => .undef
      | .raw ud => .user (User.ofData ud)
      | .user u => .user u
    description := d.description, contentWarning := d.contentWarning
    ageRestrictionLevel := d.ageRestrictionLevel, uploadedOn := d.uploadedOn }

/-- String field decoding helper for JSON-sourced content data. -/
def Json.getStr? (j : Json) (key : String) : Option String :=
  match j.get? key with
  | some (.str s) => some s
  | _ => none

/-- Decode the data argument of the Content constructor from a decoded response body.  An
owner decoded from JSON is always a raw data bag, never a live User instance. -/
def ContentInit.ofJson (j : Json) : ContentInit :=
  { id := j.getStr? "id", slug := j.getStr? "slug"
    owner :=
      match j.get? "owner" with
      | some ow =>
        match ow with
        | .null => .undef
        | .bool false => .undef
        | _ => .raw (UserData.ofJson ow)
      | none => .undef
    description := j.getStr? "description"
    contentWarning := j.getStr? "contentWarning"
    ageRestrictionLevel :=
      match j.get? "ageRestrictionLevel" with
      | some (.num n) => some n
      | _ => none
    uploadedOn := j.getStr? "uploadedOn" }

/-- Hydration of one decoded response element: new type(data), for the content type
identified by tag. -/
def Content.ofJson (tag : String) (j : Json) : Content :=
  Content.construct tag (ContentInit.ofJson j)

/-- A content-type descriptor: the class value passed to the generic content methods,
identified by its static apiDirectoryName. -/
structure ContentType where
  apiDirectoryName : String
deriving DecidableEq, Repr

/-- The content type descriptors declared by the model classes. -/
def artType : ContentType := { apiDirectoryName := "art" }

/-- The BlogPost content type descriptor. -/
def blogPostType : ContentType := { apiDirectoryName := "blogs" }

/-- The Comment content type descriptor. -/
def commentType : ContentType := { apiDirectoryName := "comments" }

/-- The Story content type descriptor. -/
def storyType : ContentType := { apiDirectoryName := "stories" }

/-- The Notification content type descriptor. -/
def notificationType : ContentType := { apiDirectoryName := "notifications" }

/-- The outcome of a getAllContent call: the hydrated list or raised condition, plus the
fetch trace. -/
structure ListOutcome where
  result : Except MakuwroError (List Content)
  fetches : List FetchCall

/-- The raised condition of a list outcome, none on success. -/
def ListOutcome.error? (r : ListOutcome) : Option MakuwroError :=
  match r.result with
  | .error e => some e
  | .ok _ => none

/-- getAllContent from src/unnamed/part_001 (lines 347-359): GET
contents/apiDirectoryName/username, then replace each element of the returned array with
new type(element).  A success body of any non-array shape has no length, so the loop
body never runs; the model covers the array responses the server contract produces. -/
def getAllContent (st : ClientState) (ty : ContentType) (username : String)
    (net : NetBehavior) : ListOutcome :=
  let r := requestREST st ("contents/" ++ ty.apiDirectoryName ++ "/" ++ username)
    "GET" [] none false net
  match r.result with
  | .error e => { result := .error e, fetches := r.fetches }
  | .ok (.json (.arr elems)) =>
    { result := .ok (elems.map (Content.ofJson ty.apiDirectoryName))
      fetches := r.fetches }
  | .ok _ => { result := .ok [], fetches := r.fetches }

/-- The path createContent builds (src/unnamed/part_001 line 147): the content directory,
then the username and slug segments when truthy, then /comments when isThread is set and
the type is not already Comment. -/
def createContentPath (ty : ContentType) (username slug : Option String)
    (isThread : Bool) : String :=
  "contents/" ++ ty.apiDirectoryName
    ++ (if strTruthy username then "/" ++ jsInterp username else "")
    ++ (if strTruthy slug then "/" ++ jsInterp slug else "")
    ++ (if isThread && ty ≠ commentType then "/comments" else "")

/-- The outcome of a createContent call: the hydrated instance or raised condition, plus
the fetch trace. -/
structure CreateOutcome where
  result : Except MakuwroError Content
  fetches : List FetchCall

/-- createContent from src/unnamed/part_001 (lines 128-154): when props is supplied its
keys are serialized into a multipart FormData by the conditional append loop; a POST is
issued with getJsonAnyway set; the response body is hydrated through the Comment
constructor when isThread is set, and through the requested type otherwise. -/
def createContent (st : ClientState) (ty : ContentType) (username slug : Option String)
    (props : Option (List (String × PropValue))) (isThread : Bool)
    (net : NetBehavior) : CreateOutcome :=
  let body := props.map createContentFormData
  let r := requestREST st (createContentPath ty username slug isThread) "POST" []
    body true net
  match r.result with
  | .error e => { result := .error e, fetches := r.fetches }
  | .ok d =>
    let j := match d with | .json j => j | .skipped => .null
    let tag := if isThread then commentType.apiDirectoryName else ty.apiDirectoryName
    { result := .ok (Content.ofJson tag j), fetches := r.fetches }

/-- updateContent from src/unnamed/part_001 (lines 568-585): the props keys are appended
to a FormData directly, and a PATCH is issued on the content path. -/
def updateContent (st : ClientState) (ty : ContentType) (username : Option String)
    (slug : String) (props : List (String × PropValue)) (net : NetBehavior) :
    RESTOutcome :=
  let path := "contents/" ++ ty.apiDirectoryName
    ++ (if strTruthy username then "/" ++ jsInterp username else "")
    ++ "/" ++ slug
  requestREST st path "PATCH" [] (some (updateContentFormData props)) false net

/-- An account-type descriptor: the class value passed to the account methods,
identified by its static apiDirectoryName. -/
structure AccountType where
  apiDirectoryName : String
deriving DecidableEq, Repr

/-- The path deleteAccount and updateAccount build (src/unnamed/part_001 lines 243 and
540): the singular account directory alone when the target username equals the
own username of the authenticated user, and the directory pluralized with an s followed by
the target username otherwise. -/
def accountPath (ty : AccountType) (ownUsername targetUsername : String) : String :=
  "accounts/" ++ ty.apiDirectoryName
    ++ (if targetUsername = ownUsername then "" else "s/" ++ targetUsername)

/-- The outcome of an account mutation: the raised condition if any, the client state
after the call, and the full fetch trace including the getUser lookup. -/
structure AccountOpOutcome where
  error? : Option MakuwroError
  state : ClientState
  fetches : List FetchCall

/-- deleteAccount from src/unnamed/part_001 (lines 241-248): it resolves the
authenticated user with getUser, then issues a DELETE on the account path, with the
password as a header.  netSelf drives the getUser lookup and netOp the mutation. -/
def deleteAccount (st : ClientState) (ty : AccountType) (username password : String)
    (netSelf netOp : NetBehavior) : AccountOpOutcome :=
  let g := getUser st none none netSelf
  match g.result with
  | .error e => { error? := some e, state := g.state, fetches := g.fetches }
  | .ok me =>
    let r := requestREST g.state (accountPath ty me.username username) "DELETE"
      [("password", password)] none false netOp
    { error? := r.error?, state := g.state, fetches := g.fetches ++ r.fetches }

/-- updateAccount from src/unnamed/part_001 (lines 528-545): the props keys are appended
to a FormData directly, the authenticated user is resolved with getUser, and a PATCH is
issued on the account path. -/
def updateAccount (st : ClientState) (ty : AccountType) (username : String)
    (props : List (String × PropValue)) (netSelf netOp : NetBehavior) :
    AccountOpOutcome :=
  let g := getUser st none none netSelf
  match g.result with
  | .error e => { error? := some e, state := g.state, fetches := g.fetches }
  | .ok me =>
    let r := requestREST g.state (accountPath ty me.username username) "PATCH" []
      (some (updateContentFormData props)) false netOp
    { error? := r.error?, state := g.state, fetches := g.fetches ++ r.fetches }

/-- A binary file handed to the upload path, with whether its bytes decode as an image. -/
structure FileBin where
  name : String
  decodable : Bool
deriving DecidableEq, Repr

/-- An observable resource event of the upload path: creation and release of the
in-memory object URL, and each network call. -/
inductive ResourceEv where
  | createObjectURL
  | revokeObjectURL
  | fetchCall (c : FetchCall)

/-- True exactly on the network-call events of an upload trace. -/
def ResourceEv.isFetch : ResourceEv → Bool
  | .fetchCall _ => true
  | _ => false

/-- The outcome of uploadImageToLiterature: the returned image path data or raised
condition, plus the ordered resource-event trace. -/
structure UploadOutcome where
  result : Except MakuwroError RData
  events : List ResourceEv

/-- The raised condition of an upload outcome, none on success. -/
def UploadOutcome.error? (r : UploadOutcome) : Option MakuwroError :=
  match r.result with
  | .error e => some e
  | .ok _ => none

/-- uploadImageToLiterature from src/unnamed/part_001 (lines 625-667).  checkImage
creates an object URL for the file and attempts to decode it as an image; both the
onload and the onerror handler revoke the URL before settling, and a decode failure
rejects with UnallowedFileTypeError.  Only after the check resolves is the multipart
POST to the images endpoint issued. -/
def uploadImageToLiterature (st : ClientState) (ty : ContentType)
    (ownerUsername slug : String) (file : FileBin) (net : NetBehavior) :
    UploadOutcome :=
  let checkEvents : List ResourceEv := [.createObjectURL, .revokeObjectURL]
  if file.decodable then
    let r := requestREST st
      ("contents/" ++ ty.apiDirectoryName ++ "/" ++ ownerUsername ++ "/" ++ slug
        ++ "/images")
      "POST" [] (some [("image", .file file.name)]) true net
    { result := r.result, events := checkEvents ++ r.fetches.map .fetchCall }
  else
    { result := .error .unallowedFileType, events := checkEvents }

namespace ClientJS

/-- requestREST from src/classes/Client.js: the earlier revision.  The data expression
is !response.ok || method === "GET" && await response.json(), so on a failing response
data is the boolean true and the error mapping receives an undefined code. -/
def requestREST (st : ClientState) (path method : String)
    (headers : List (String × String)) (body : Option (List (String × FormValue)))
    (net : NetBehavior) : RESTOutcome :=
  let call : FetchCall :=
    { url := st.rest ++ path, method := method
      headers := sentHeaders st headers, body := body }
  match net with
  | .hangs => { result := .error .timeout, fetches := [call] }
  | .responds delayMs ok responseBody =>
    if st.timeout ≤ delayMs then
      { result := .error .timeout, fetches := [call] }
    else if !ok then
      { result := .error (ClientJS.throwErrorFromObject none none), fetches := [call] }
    else
      let data : RData := if method = "GET" then .json responseBody else .skipped
      { result := .ok data, fetches := [call] }

/-- search from src/classes/Client.js (lines 459-484): a missing query or type raises
RequiredVariableError before any network attempt; otherwise the GET goes through
requestREST inside a try block whose catch clause is empty, so any raised condition is
discarded and the method returns undefined. -/
def search (st : ClientState) (query ty : Option String) (net : NetBehavior) :
    (Option MakuwroError) × List FetchCall :=
  if !strTruthy query then
    (some (.requiredVariable "query"), [])
  else if !strTruthy ty then
    (some (.requiredVariable "type"), [])
  else
    let r := ClientJS.requestREST st ("search?query=" ++ jsInterp query) "GET" [] none net
    (none, r.fetches)

end ClientJS

/-! Concrete fixtures used by witnesses and counterexamples. -/

/-- A client with a session token, production endpoint and an empty user cache. -/
def stTok : ClientState :=
  { token := some "tok", rest := "https://api.makuwro.com/", timeout := 15000
    user := none }

/-- A client with no session token and an empty user cache. -/
def stAnon : ClientState :=
  { token := none, rest := "https://api.makuwro.com/", timeout := 15000, user := none }

/-- A sample authenticated user. -/
def aliceUser : User :=
  { username := "Alice", displayName := some "Alice", id := "u1", avatarPath := none }

/-- A client whose user cache holds aliceUser. -/
def stCached : ClientState :=
  { token := some "tok", rest := "https://api.makuwro.com/", timeout := 15000
    user := some aliceUser }

/-- A client whose stored token is the empty string, a non-null but JS-falsy value. -/
def stEmptyTok : ClientState :=
  { token := some "", rest := "https://api.makuwro.com/", timeout := 15000, user := none }

/-- The mapping of src/unnamed/part_001 never produces a plain untyped error. -/
theorem throwErrorFromObject_ne_rawError (code : Option Int) (m : Option String) :
    throwErrorFromObject code ≠ .rawError m := by
  unfold throwErrorFromObject
  split_ifs <;> simp

/-- C1 counterexample: a POST whose response is non-2xx with body code 10000 raises the
generic Unknown condition, not the table entry BadCredentials for 10000, because
requestREST reads the body as JSON only for GET requests or when forceBodyParse is set. -/
theorem requestREST_error_body_unparsed_counterexample :
    (requestREST stTok "accounts/user/sessions" "POST" [] none false
        (.responds 0 false (.obj [("code", .num 10000)]))).error? = some .unknown
    ∧ throwErrorFromObject ((Json.obj [("code", .num 10000)]).code?) = .badCredentials
    ∧ MakuwroError.unknown ≠ MakuwroError.badCredentials := by
  exact ⟨rfl, rfl, by decide⟩

/-- C1 (amended): on every requestREST call whose response arrives non-2xx, exactly one
typed condition is raised — never a success value and never a raw untyped error; the
body is parsed as JSON and its code looked up in the error table when the method is GET
or forceBodyParse is set, and otherwise the generic Unknown condition is raised without
parsing the body. -/
theorem requestREST_error_mapping (st : ClientState) (path method : String)
    (headers : List (String × String)) (body : Option (List (String × FormValue)))
    (getJsonAnyway : Bool) (delayMs : Nat) (responseBody : Json)
    (harrive : delayMs < st.timeout) :
    (requestREST st path method headers body getJsonAnyway
        (.responds delayMs false responseBody)).result
      = .error (if method = "GET" || getJsonAnyway
          then throwErrorFromObject responseBody.code? else .unknown)
    ∧ ∀ m, (requestREST st path method headers body getJsonAnyway
        (.responds delayMs false responseBody)).error? ≠ some (.rawError m) := by
  have hnl : ¬ st.timeout ≤ delayMs := Nat.not_le.mpr harrive
  cases hg : (decide (method = "GET") || getJsonAnyway) with
  | true =>
    refine ⟨?_, fun m => ?_⟩
    · simp [requestREST, if_neg hnl, hg, RData.code?]
    · simp [requestREST, RESTOutcome.error?, if_neg hnl, hg, RData.code?,
        throwErrorFromObject_ne_rawError]
  | false =>
    refine ⟨?_, fun m => ?_⟩
    · simp [requestREST, if_neg hnl, hg, RData.code?, throwErrorFromObject]
    · simp [requestREST, RESTOutcome.error?, if_neg hnl, hg, RData.code?,
        throwErrorFromObject]

/-- Witness for the amended C1 theorem: a GET failing with code 10013 raises the
UsernameFormat condition found in the table. -/
theorem requestREST_error_mapping_witness :
    (0 < stTok.timeout)
    ∧ (requestREST stTok "accounts/user/sessions" "GET" [] none false
        (.responds 0 false (.obj [("code", .num 10013)]))).result
      = .error (if "GET" = "GET" || false
          then throwErrorFromObject (Json.obj [("code", .num 10013)]).code? else .unknown) :=
  ⟨by decide,
   (requestREST_error_mapping stTok "accounts/user/sessions" "GET" [] none false 0
     (.obj [("code", .num 10013)]) (by decide)).1⟩

/-- C2: the Client.js revision of throwErrorFromObject throws a raw untyped Error for
code 10001 — contradicting both the claimed table (10001 maps to InvalidToken) and the
doc comment of that very function, which promises an UnknownError for unlisted codes — while
the part_001 revision implements the claimed table exactly, with Unknown as the fallback
for unrecognized codes. -/
theorem throwErrorFromObject_code_tables :
    ClientJS.throwErrorFromObject (some 10001) (some "oops") = .rawError (some "oops")
    ∧ ClientJS.throwErrorFromObject (some 31337) (some "oops") = .rawError (some "oops")
    ∧ throwErrorFromObject (some 0) = .unknown
    ∧ throwErrorFromObject (some 10000) = .badCredentials
    ∧ throwErrorFromObject (some 10001) = .invalidToken
    ∧ throwErrorFromObject (some 10003) = .accountBlocked
    ∧ throwErrorFromObject (some 10004) = .accountConflict
    ∧ throwErrorFromObject (some 10005) = .accountNotFound
    ∧ throwErrorFromObject (some 10012) = .underage
    ∧ throwErrorFromObject (some 10013) = .usernameFormat
    ∧ throwErrorFromObject (some 20000) = .contentConflict
    ∧ throwErrorFromObject (some 31337) = .unknown
    ∧ throwErrorFromObject none = .unknown := by
  decide

/-- C3: every requestREST call whose response does not arrive before the timeoutMs timer
fires is aborted and fails with the Timeout condition, and exactly one fetch is issued —
no retry follows the failure. -/
theorem requestREST_timeout (st : ClientState) (path method : String)
    (headers : List (String × String)) (body : Option (List (String × FormValue)))
    (getJsonAnyway : Bool) (net : NetBehavior)
    (h : net = .hangs
      ∨ ∃ delayMs ok responseBody,
          net = .responds delayMs ok responseBody ∧ st.timeout ≤ delayMs) :
    (requestREST st path method headers body getJsonAnyway net).result = .error .timeout
    ∧ (requestREST st path method headers body getJsonAnyway net).fetches.length = 1 := by
  rcases h with h | ⟨delayMs, ok, responseBody, rfl, hd⟩
  · subst h
    exact ⟨rfl, rfl⟩
  · simp [requestREST, hd]

/-- Witness for C3: a request against a mock backend that never responds fails with
Timeout after a single fetch. -/
theorem requestREST_timeout_witness :
    (NetBehavior.hangs = NetBehavior.hangs
      ∨ ∃ delayMs ok responseBody,
          NetBehavior.hangs = .responds delayMs ok responseBody ∧ stTok.timeout ≤ delayMs)
    ∧ (requestREST stTok "accounts/user" "GET" [] none false .hangs).result
        = .error .timeout
    ∧ (requestREST stTok "accounts/user" "GET" [] none false .hangs).fetches.length = 1 :=
  ⟨Or.inl rfl,
   requestREST_timeout stTok "accounts/user" "GET" [] none false .hangs (Or.inl rfl)⟩

/-- Every requestREST call issues exactly one fetch, whatever the network does. -/
theorem requestREST_single_fetch (st : ClientState) (path method : String)
    (headers : List (String × String)) (body : Option (List (String × FormValue)))
    (getJsonAnyway : Bool) (net : NetBehavior) :
    (requestREST st path method headers body getJsonAnyway net).fetches.length = 1 := by
  cases net with
  | hangs => rfl
  | responds delayMs ok responseBody =>
    simp only [requestREST]
    split_ifs <;> simp

/-- The network half of getUser issues exactly one fetch, and a non-self lookup leaves
the client state untouched. -/
theorem getUserFetch_contract (st : ClientState) (self : Bool) (username : Option String)
    (net : NetBehavior) :
    (getUserFetch st self username net).fetches.length = 1
    ∧ (self = false → (getUserFetch st self username net).state = st) := by
  cases net with
  | hangs => simp [getUserFetch, requestREST]
  | responds delayMs ok responseBody =>
    simp only [getUserFetch, requestREST]
    split_ifs <;> simp_all

/-- C4: the getUser caching contract.  A self lookup with a populated cache returns the
cached user with no network call; a self lookup with an empty cache and no token raises
the Unauthenticated condition (InvalidTokenError) with no network call; a successful
network self lookup returns the hydrated user and replaces the cache with it; and a
non-self lookup always issues exactly one network call and never touches the cache. -/
theorem getUser_cache_contract (st : ClientState) (username id : Option String)
    (net : NetBehavior) :
    (∀ u, isSelfLookup st username id = true → st.user = some u →
      getUser st username id net = { result := .ok u, state := st, fetches := [] })
    ∧ (isSelfLookup st username id = true → st.user = none →
        strTruthy st.token = false →
      getUser st username id net
        = { result := .error .invalidToken, state := st, fetches := [] })
    ∧ (∀ delayMs responseBody, isSelfLookup st username id = true → st.user = none →
        strTruthy st.token = true → delayMs < st.timeout →
        net = .responds delayMs true responseBody →
      (getUser st username id net).result = .ok (User.ofJson responseBody)
      ∧ (getUser st username id net).state.user = some (User.ofJson responseBody))
    ∧ (isSelfLookup st username id = false →
      (getUser st username id net).fetches.length = 1
      ∧ (getUser st username id net).state.user = st.user) := by
  refine ⟨?_, ?_, ?_, ?_⟩
  · intro u h hu
    simp [getUser, h, hu]
  · intro h hu ht
    simp [getUser, h, hu, ht]
  · intro delayMs responseBody h hu ht hd hnet
    subst hnet
    have hnl : ¬ st.timeout ≤ delayMs := Nat.not_le.mpr hd
    constructor <;>
      simp [getUser, h, hu, ht, getUserFetch, requestREST, if_neg hnl]
  · intro h
    cases hu : st.user with
    | none =>
      refine ⟨?_, ?_⟩
      · simpa [getUser, h, hu] using (getUserFetch_contract st false username net).1
      · have hst := (getUserFetch_contract st false username net).2 rfl
        simp [getUser, h, hu, hst]
    | some u =>
      refine ⟨?_, ?_⟩
      · simpa [getUser, h, hu] using (getUserFetch_contract st false username net).1
      · have hst := (getUserFetch_contract st false username net).2 rfl
        simp [getUser, h, hu, hst]

/-- Witness for C4: with aliceUser cached, a no-argument lookup is a self lookup and is
served from the cache without touching the network. -/
theorem getUser_cache_contract_witness :
    isSelfLookup stCached none none = true
    ∧ stCached.user = some aliceUser
    ∧ getUser stCached none none .hangs
        = { result := .ok aliceUser, state := stCached, fetches := [] } :=
  ⟨by decide, rfl,
   (getUser_cache_contract stCached none none .hangs).1 aliceUser (by decide) rfl⟩

/-- The single fetch of a requestREST call, explicitly: the configured endpoint followed
by the path, the requested method, the sent headers and the given body. -/
theorem requestREST_fetches (st : ClientState) (path method : String)
    (headers : List (String × String)) (body : Option (List (String × FormValue)))
    (getJsonAnyway : Bool) (net : NetBehavior) :
    (requestREST st path method headers body getJsonAnyway net).fetches
      = [{ url := st.rest ++ path, method := method
           headers := sentHeaders st headers, body := body }] := by
  cases net with
  | hangs => rfl
  | responds delayMs ok responseBody =>
    simp only [requestREST]
    split_ifs <;> rfl

/-- The Team account-type descriptor (src/unnamed/part_005). -/
def teamAccountType : AccountType := { apiDirectoryName := "team" }

/-- C5: deleteAccount and updateAccount path asymmetry.  With the authenticated user
resolved from the cache, both requests target the singular account directory with no
username segment when the target username equals the own username of the authenticated user,
and the pluralized directory followed by the target username otherwise. -/
theorem accountPath_self_asymmetry (st : ClientState) (ty : AccountType)
    (username password : String) (props : List (String × PropValue))
    (netSelf netOp : NetBehavior) (me : User)
    (hcache : st.user = some me) :
    ((deleteAccount st ty username password netSelf netOp).fetches.map FetchCall.url
      = [st.rest ++ accountPath ty me.username username])
    ∧ ((updateAccount st ty username props netSelf netOp).fetches.map FetchCall.url
      = [st.rest ++ accountPath ty me.username username])
    ∧ (username = me.username →
      accountPath ty me.username username = "accounts/" ++ ty.apiDirectoryName)
    ∧ (username ≠ me.username →
      accountPath ty me.username username
        = "accounts/" ++ ty.apiDirectoryName ++ "s/" ++ username) := by
  have hself : isSelfLookup st none none = true := by
    simp [isSelfLookup, strTruthy]
  have hg : getUser st none none netSelf
      = { result := .ok me, state := st, fetches := [] } := by
    simp [getUser, hself, hcache]
  refine ⟨?_, ?_, ?_, ?_⟩
  · simp [deleteAccount, hg, requestREST_fetches]
  · simp [updateAccount, hg, requestREST_fetches]
  · intro h
    simp [accountPath, h]
  · intro h
    simp [accountPath, if_neg h, String.append_assoc]

/-- Witness for C5: with aliceUser cached, deleting the account of another username Bob
issues one DELETE whose path carries the pluralized segment and the target username. -/
theorem accountPath_self_asymmetry_witness :
    stCached.user = some aliceUser
    ∧ ("Bob" : String) ≠ aliceUser.username
    ∧ (deleteAccount stCached teamAccountType "Bob" "pw" .hangs .hangs).fetches.map
        FetchCall.url
      = [stCached.rest ++ accountPath teamAccountType aliceUser.username "Bob"]
    ∧ accountPath teamAccountType aliceUser.username "Bob"
      = "accounts/" ++ teamAccountType.apiDirectoryName ++ "s/" ++ "Bob" :=
  ⟨rfl, by decide,
   (accountPath_self_asymmetry stCached teamAccountType "Bob" "pw" [] .hangs .hangs
     aliceUser rfl).1,
   (accountPath_self_asymmetry stCached teamAccountType "Bob" "pw" [] .hangs .hangs
     aliceUser rfl).2.2.2 (by decide)⟩

/-- C6 counterexample: updateContent appends a nested-object prop value directly, so the
FormData coerces it to the text [object Object] instead of its JSON serialization. -/
theorem updateContent_object_prop_counterexample :
    updateContentFormData [("details", PropValue.other (.obj [("a", .num 1)]))]
      = [("details", FormValue.str "[object Object]")]
    ∧ (updateContent stTok artType (some "Alice") "slug1"
        [("details", PropValue.other (.obj [("a", .num 1)]))]
        (.responds 0 true .null)).fetches.map FetchCall.body
      = [some [("details", FormValue.str "[object Object]")]]
    ∧ Json.stringify (.obj [("a", .num 1)]) = "\x7b\"a\":1\x7d"
    ∧ FormValue.str "[object Object]" ≠ FormValue.str "\x7b\"a\":1\x7d" := by
  refine ⟨rfl, ?_, rfl, by decide⟩
  rw [updateContent, requestREST_fetches]
  rfl

/-- C6 (amended): createContent serializes every key of props into a multipart form
field — string and File values pass through untouched and every other value is
JSON-stringified — and the resulting FormData is the body of the issued POST; the
updateContent append loop instead attaches each value directly, so FormData applies JS
default string coercion to non-string, non-File values. -/
theorem content_props_serialization (props : List (String × PropValue)) :
    createContentFormData props = props.map (fun p => (p.1, p.2.serializedForCreate))
    ∧ updateContentFormData props = props.map (fun p => (p.1, p.2.appendedDirectly))
    ∧ (∀ s, PropValue.serializedForCreate (.str s) = .str s)
    ∧ (∀ n, PropValue.serializedForCreate (.file n) = .file n)
    ∧ (∀ j, PropValue.serializedForCreate (.other j) = .str (Json.stringify j))
    ∧ (∀ st ty username slug isThread net,
        (createContent st ty username slug (some props) isThread net).fetches.map
          FetchCall.body
        = [some (createContentFormData props)]) := by
  refine ⟨?_, ?_, fun s => rfl, fun n => rfl, fun j => rfl, ?_⟩
  · induction props with
    | nil => rfl
    | cons p rest ih =>
      cases p
      simp [createContentFormData, ih]
  · induction props with
    | nil => rfl
    | cons p rest ih =>
      cases p
      simp [updateContentFormData, ih]
  · intro st ty username slug isThread net
    cases hr : (requestREST st (createContentPath ty username slug isThread) "POST" []
        (some (createContentFormData props)) true net).result with
    | error e => simp [createContent, Option.map, hr, requestREST_fetches]
    | ok d => simp [createContent, Option.map, hr, requestREST_fetches]

/-- A sample raw owner data bag. -/
def aliceData : UserData :=
  { username := "Alice", displayName := some "Alice", id := "u1", avatarPath := none }

/-- A sample Content constructor argument whose owner is a raw data bag. -/
def rawOwnerInit : ContentInit :=
  { id := some "c1", slug := some "s", owner := .raw aliceData, description := none
    contentWarning := none, ageRestrictionLevel := none, uploadedOn := none }

/-- C7: once the Content constructor completes, a present owner is a User instance and
never a raw data bag: a raw owner is wrapped into a User during construction, an owner
that already is a User is left as-is, re-running the constructor on its own output
changes nothing, and hydrating from JSON whose owner is a plain object yields a User
built from that object. -/
theorem content_owner_hydration (tag : String) (d : ContentInit) :
    (∀ ud, d.owner = .raw ud →
      (Content.construct tag d).owner = .user (User.ofData ud))
    ∧ (∀ u, d.owner = .user u → (Content.construct tag d).owner = .user u)
    ∧ (∀ ud, (Content.construct tag d).owner ≠ .raw ud)
    ∧ (Content.construct tag { d with owner := (Content.construct tag d).owner }
        = Content.construct tag d)
    ∧ (∀ j fields, Json.get? j "owner" = some (.obj fields) →
        (Content.ofJson tag j).owner
          = .user (User.ofData (UserData.ofJson (.obj fields)))) := by
  refine ⟨?_, ?_, ?_, ?_, ?_⟩
  · intro ud h
    simp [Content.construct, h]
  · intro u h
    simp [Content.construct, h]
  · intro ud
    cases h : d.owner <;> simp [Content.construct, h]
  · cases h : d.owner <;> simp [Content.construct, h]
  · intro j fields h
    simp [Content.ofJson, Content.construct, ContentInit.ofJson, h]

/-- Witness for C7: constructing art from data with a raw owner yields the hydrated
User. -/
theorem content_owner_hydration_witness :
    rawOwnerInit.owner = .raw aliceData
    ∧ (Content.construct "art" rawOwnerInit).owner = .user (User.ofData aliceData) :=
  ⟨rfl, (content_owner_hydration "art" rawOwnerInit).1 aliceData rfl⟩

/-- C8: getAllContent on a successful array response hydrates every element into an
instance of the requested content type, raises nothing, and in particular returns the
empty sequence for an owner who has posted nothing. -/
theorem getAllContent_contract (st : ClientState) (ty : ContentType) (username : String)
    (delayMs : Nat) (elems : List Json)
    (h : delayMs < st.timeout) :
    (getAllContent st ty username (.responds delayMs true (.arr elems))).result
      = .ok (elems.map (Content.ofJson ty.apiDirectoryName))
    ∧ (getAllContent st ty username (.responds delayMs true (.arr elems))).error? = none
    ∧ (getAllContent st ty username (.responds delayMs true (.arr []))).result
      = .ok [] := by
  have hnl : ¬ st.timeout ≤ delayMs := Nat.not_le.mpr h
  refine ⟨?_, ?_, ?_⟩ <;>
    simp [getAllContent, requestREST, if_neg hnl, ListOutcome.error?]

/-- Witness for C8: an owner with no posts yields the empty sequence with no error. -/
theorem getAllContent_contract_witness :
    (0 < stTok.timeout)
    ∧ (getAllContent stTok artType "Alice" (.responds 0 true (.arr []))).result
        = .ok [] :=
  ⟨by decide, (getAllContent_contract stTok artType "Alice" 0 [] (by decide)).2.2⟩

/-- C9: the upload path always creates and then releases the in-memory object URL as the
first two events, whatever the decode check concludes; everything after the check is
network calls; and a file whose bytes do not decode as an image fails fast with the
UnallowedFileType condition, with no network call issued. -/
theorem uploadImage_decode_check (st : ClientState) (ty : ContentType)
    (ownerUsername slug : String) (file : FileBin) (net : NetBehavior) :
    ((uploadImageToLiterature st ty ownerUsername slug file net).events.take 2
      = [.createObjectURL, .revokeObjectURL])
    ∧ (((uploadImageToLiterature st ty ownerUsername slug file net).events.drop 2).all
        ResourceEv.isFetch = true)
    ∧ (file.decodable = false →
        (uploadImageToLiterature st ty ownerUsername slug file net).result
          = .error .unallowedFileType
        ∧ (uploadImageToLiterature st ty ownerUsername slug file net).events
          = [.createObjectURL, .revokeObjectURL]) := by
  cases hd : file.decodable with
  | false =>
    refine ⟨?_, ?_, fun _ => ⟨?_, ?_⟩⟩ <;> simp [uploadImageToLiterature, hd]
  | true =>
    refine ⟨?_, ?_, fun hc => by simp [hd] at hc⟩
    · simp [uploadImageToLiterature, hd, requestREST_fetches]
    · simp [uploadImageToLiterature, hd, requestREST_fetches, ResourceEv.isFetch]

/-- A file whose bytes are not an image. -/
def badFile : FileBin := { name := "f.txt", decodable := false }

/-- Witness for C9: a non-image file is rejected with UnallowedFileType and the trace
holds only the URL creation and release, no network call. -/
theorem uploadImage_decode_check_witness :
    badFile.decodable = false
    ∧ (uploadImageToLiterature stTok blogPostType "Alice" "s" badFile .hangs).result
        = .error .unallowedFileType
    ∧ (uploadImageToLiterature stTok blogPostType "Alice" "s" badFile .hangs).events
        = [.createObjectURL, .revokeObjectURL] :=
  ⟨rfl,
   (uploadImage_decode_check stTok blogPostType "Alice" "s" badFile .hangs).2.2 rfl⟩

/-- In a header list, a binding appended last wins the lookup for its key. -/
theorem getHeader_append_last (hs : List (String × String)) (k v : String) :
    getHeader (hs ++ [(k, v)]) k = some v := by
  induction hs with
  | nil => simp [getHeader]
  | cons p rest ih =>
    cases p with
    | mk a b => simp [getHeader, ih]

/-- C10 counterexample: a stored token that is the empty string is non-null, yet the
outgoing token header of deleteSessionToken is the value given by the caller, not the stored one,
because the override is guarded by JS truthiness. -/
theorem token_header_override_counterexample :
    stEmptyTok.token ≠ none
    ∧ ((deleteSessionToken stEmptyTok (some "other") (.responds 0 true .null)).fetches.map
        (fun c => getHeader c.headers "token")) = [some "other"]
    ∧ some "other" ≠ stEmptyTok.token := by
  refine ⟨by decide, ?_, by decide⟩
  rw [deleteSessionToken, requestREST_fetches]
  rfl

/-- C10 (amended): on a client whose stored token is non-null and non-empty, the
outgoing token header of every requestREST fetch equals the stored token even when the
caller supplies a different token header; in particular deleteSessionToken with any
argument sends the stored token. -/
theorem token_header_override (st : ClientState) (path method : String)
    (headers : List (String × String)) (body : Option (List (String × FormValue)))
    (getJsonAnyway : Bool) (net : NetBehavior) (t : String)
    (htok : st.token = some t) (hne : t.isEmpty = false) :
    (∀ c ∈ (requestREST st path method headers body getJsonAnyway net).fetches,
      getHeader c.headers "token" = some t)
    ∧ (∀ tokenArg net2, ∀ c ∈ (deleteSessionToken st (some tokenArg) net2).fetches,
        getHeader c.headers "token" = some t) := by
  have hsent : ∀ hs, getHeader (sentHeaders st hs) "token" = some t := by
    intro hs
    simp [sentHeaders, htok, hne, getHeader_append_last]
  constructor
  · intro c hc
    rw [requestREST_fetches] at hc
    simp only [List.mem_singleton] at hc
    subst hc
    exact hsent headers
  · intro tokenArg net2 c hc
    rw [deleteSessionToken, requestREST_fetches] at hc
    simp only [List.mem_singleton] at hc
    subst hc
    exact hsent _

/-- Witness for C10 (amended): deleteSessionToken given a different token still sends
the stored token header. -/
theorem token_header_override_witness :
    stTok.token = some "tok"
    ∧ ("tok" : String).isEmpty = false
    ∧ ∀ c ∈ (deleteSessionToken stTok (some "other") .hangs).fetches,
        getHeader c.headers "token" = some "tok" :=
  ⟨rfl, rfl, fun c hc =>
    (token_header_override stTok "x" "GET" [] none false .hangs "tok" rfl rfl).2
      "other" .hangs c hc⟩

end Makuwro
